import Mathlib

/-!
Shallow embedding of the loveardinnerdates server (MemStorage and the Express
route handlers in `server/storage.ts`, and the `ContentModerator` module) in
Lean 4, with theorems checking the natural-language specification against it.

Conventions of the embedding:
* Monetary amounts and coordinates are decimal strings parsed with `parseFloat`
  in the source; they are modelled as exact rationals (`ℚ`).
* Timestamps (`Date.now()` milliseconds) are modelled as integers passed in
  explicitly as a `now` parameter; 24 hours is `86400000` ms.
* A JS `Map<number, T>` keyed by `id` is modelled as a `List T`; `Map.get`
  becomes `List.find?` on the `id` field and `Map.set` of an existing key
  becomes a pointwise replacement (ids are unique for states reachable
  through the API).
* Only the record fields the routes under scrutiny read or write are kept.
-/

/-- Rows of the `users` table, restricted to the fields used by the
wallet, suspension, and nearby-query logic. `latitude`/`longitude` are
nullable decimal strings in the schema; `none` models a null/absent value. -/
structure User where
  id : Nat
  walletBalance : ℚ
  latitude : Option ℚ
  longitude : Option ℚ
  suspendedUntil : Option Int
deriving DecidableEq

/-- Rows of the `blindDates` table (fields used by the create/join routes). -/
structure BlindDate where
  id : Nat
  user1Id : Nat
  user2Id : Option Nat
  amount : ℚ
  status : String
  scheduledFor : Option Int
deriving DecidableEq

/-- Rows of the `swipes` table. -/
structure Swipe where
  id : Nat
  swiperId : Nat
  swipedId : Nat
  action : String
deriving DecidableEq

/-- Rows of the `matches` table (`MemStorage.createMatch` sets `isActive`). -/
structure MatchRec where
  id : Nat
  user1Id : Nat
  user2Id : Nat
  isActive : Bool
deriving DecidableEq

/-- Rows of the `messages` table. -/
structure Message where
  id : Nat
  matchId : Nat
  senderId : Nat
  content : String
  isRead : Bool
deriving DecidableEq

/-- Rows of the `violations` table. -/
structure Violation where
  id : Nat
  userId : Nat
  type : String
  content : String
  fineAmount : ℚ
  status : String
deriving DecidableEq

/-- The in-memory state of `MemStorage`: one list per `Map`, plus the
auto-increment counters the `create*` methods use. -/
structure Store where
  users : List User
  blindDates : List BlindDate
  swipes : List Swipe
  -- the `matches` Map of the source (`matches` is reserved in Lean)
  matchList : List MatchRec
  messages : List Message
  violations : List Violation
  currentBlindDateId : Nat
  currentSwipeId : Nat
  currentMatchId : Nat
  currentMessageId : Nat
  currentViolationId : Nat
deriving DecidableEq

/-- `MemStorage.getUser`. -/
def getUser (s : Store) (id : Nat) : Option User :=
  s.users.find? (fun u => u.id == id)

/-- `MemStorage.getBlindDate`. -/
def getBlindDate (s : Store) (id : Nat) : Option BlindDate :=
  s.blindDates.find? (fun b => b.id == id)

/-- `MemStorage.getSwipe`: first swipe whose `(swiperId, swipedId)` matches. -/
def getSwipe (s : Store) (swiperId swipedId : Nat) : Option Swipe :=
  s.swipes.find? (fun sw => sw.swiperId == swiperId && sw.swipedId == swipedId)

/-- `MemStorage.updateUser` at the concrete partial updates the routes use:
the merged record `{ ...user, ...updates }` is written back under the same id.
When no user has the id, the store is unchanged (the source returns
`undefined` without mutating). -/
def updateUser (s : Store) (id : Nat) (f : User → User) : Store :=
  { s with users := s.users.map fun u => if u.id == id then f u else u }

/-- `MemStorage.updateBlindDate` (same merge-and-set shape as `updateUser`). -/
def updateBlindDate (s : Store) (id : Nat) (f : BlindDate → BlindDate) : Store :=
  { s with blindDates := s.blindDates.map fun b => if b.id == id then f b else b }

/-- The field update `MemStorage.matchBlindDate` applies: `user2Id`,
`status = "matched"`, `scheduledFor = now + 24h`. -/
def matchUpdate (user2Id : Nat) (now : Int) (b : BlindDate) : BlindDate :=
  { b with user2Id := some user2Id, status := "matched",
           scheduledFor := some (now + 86400000) }

/-- The `POST /api/blind-dates` handler: reject with the 400 message when the
user is missing or underfunded, else create the pending blind date and debit
`amount` from the creator's wallet (using the balance read before creation,
as the source does). -/
def createBlindDateRoute (s : Store) (user1Id : Nat) (amount : ℚ) :
    Except String BlindDate × Store :=
  match getUser s user1Id with
  | none => (.error "Insufficient wallet balance", s)
  | some u =>
    if u.walletBalance < amount then (.error "Insufficient wallet balance", s)
    else
      let bd : BlindDate :=
        { id := s.currentBlindDateId, user1Id := user1Id, user2Id := none,
          amount := amount, status := "pending", scheduledFor := none }
      let s1 : Store :=
        { s with blindDates := s.blindDates ++ [bd],
                 currentBlindDateId := s.currentBlindDateId + 1 }
      (.ok bd, updateUser s1 user1Id
        (fun v => { v with walletBalance := u.walletBalance - amount }))

/-- The `POST /api/blind-dates/:id/join` handler: 404 when the user or the
blind date is missing, 400 when the joiner is underfunded, otherwise apply
`matchBlindDate` and debit the joiner.  The source performs no check of the
blind date's status and no check that the joiner differs from `user1Id`. -/
def joinBlindDateRoute (s : Store) (userId blindDateId : Nat) (now : Int) :
    Except String BlindDate × Store :=
  match getUser s userId, getBlindDate s blindDateId with
  | some u, some bd =>
    if u.walletBalance < bd.amount then (.error "Insufficient wallet balance", s)
    else
      (.ok (matchUpdate userId now bd),
       updateUser (updateBlindDate s blindDateId (matchUpdate userId now)) userId
         (fun v => { v with walletBalance := u.walletBalance - bd.amount }))
  | _, _ => (.error "User or blind date not found", s)

/-- Replacing every element selected by `p` with its `f`-image commutes with
`find? p` when `f` preserves `p`; this is how `Map.set` interacts with
`Map.get` in the list model. -/
theorem find?_map_update {α : Type} (p : α → Bool) (f : α → α)
    (hp : ∀ a, p (f a) = p a) :
    ∀ l : List α,
      (l.map fun a => if p a then f a else a).find? p = (l.find? p).map f := by
  intro l
  induction l with
  | nil => simp
  | cons a l ih =>
    by_cases h : p a
    · simp [List.find?, h, hp]
    · simp [List.find?, h, ih]

theorem getUser_updateUser (s : Store) (id : Nat) (f : User → User)
    (hf : ∀ u, (f u).id = u.id) :
    getUser (updateUser s id f) id = (getUser s id).map f := by
  have hp : ∀ u : User, ((f u).id == id) = (u.id == id) := by
    intro u; rw [hf]
  simpa [getUser, updateUser] using
    find?_map_update (fun u : User => u.id == id) f hp s.users

theorem getUser_updateBlindDate (s : Store) (id uid : Nat)
    (f : BlindDate → BlindDate) :
    getUser (updateBlindDate s id f) uid = getUser s uid := rfl

theorem getBlindDate_updateUser (s : Store) (id bdId : Nat) (f : User → User) :
    getBlindDate (updateUser s id f) bdId = getBlindDate s bdId := rfl

theorem getBlindDate_updateBlindDate (s : Store) (id : Nat)
    (f : BlindDate → BlindDate) (hf : ∀ b, (f b).id = b.id) :
    getBlindDate (updateBlindDate s id f) id = (getBlindDate s id).map f := by
  have hp : ∀ b : BlindDate, ((f b).id == id) = (b.id == id) := by
    intro b; rw [hf]
  simpa [getBlindDate, updateBlindDate] using
    find?_map_update (fun b : BlindDate => b.id == id) f hp s.blindDates

/-! ### Concrete states used to instantiate the theorems -/

/-- A user with a 100-unit wallet. -/
def user1ex : User :=
  { id := 1, walletBalance := 100, latitude := none, longitude := none,
    suspendedUntil := none }

/-- A pending blind date created by user 7 with stake 30. -/
def bd1ex : BlindDate :=
  { id := 1, user1Id := 7, user2Id := none, amount := 30,
    status := "pending", scheduledFor := none }

/-- A store holding `user1ex` and `bd1ex`. -/
def store1 : Store :=
  { users := [user1ex], blindDates := [bd1ex], swipes := [], matchList := [],
    messages := [], violations := [], currentBlindDateId := 2,
    currentSwipeId := 1, currentMatchId := 1, currentMessageId := 1,
    currentViolationId := 1 }

/-- Like `store1`, but the pending blind date was created by user 1 itself. -/
def bdSelf : BlindDate :=
  { id := 1, user1Id := 1, user2Id := none, amount := 30,
    status := "pending", scheduledFor := none }

/-- Store in which user 1 owns the only pending blind date. -/
def storeSelf : Store := { store1 with blindDates := [bdSelf] }

theorem getUser_set_blindDates (s : Store) (bds : List BlindDate) (n uid : Nat) :
    getUser { s with blindDates := bds, currentBlindDateId := n } uid
      = getUser s uid := rfl

/-- Claim C1: for every blind-date create or join request, if the acting
user's wallet covers the amount the operation succeeds and that user's
balance drops by exactly the amount; if the balance is short the operation
is rejected with the insufficient-balance error and the store is returned
unchanged. -/
theorem blindDate_wallet_invariant :
    (∀ (s : Store) (uid : Nat) (amt : ℚ) (u : User), getUser s uid = some u →
      (amt ≤ u.walletBalance →
        (∃ b, (createBlindDateRoute s uid amt).1 = Except.ok b) ∧
        (getUser (createBlindDateRoute s uid amt).2 uid).map User.walletBalance
          = some (u.walletBalance - amt)) ∧
      (u.walletBalance < amt →
        createBlindDateRoute s uid amt
          = (Except.error "Insufficient wallet balance", s))) ∧
    (∀ (s : Store) (uid bdId : Nat) (now : Int) (u : User) (bd : BlindDate),
      getUser s uid = some u → getBlindDate s bdId = some bd →
      (bd.amount ≤ u.walletBalance →
        (∃ b, (joinBlindDateRoute s uid bdId now).1 = Except.ok b) ∧
        (getUser (joinBlindDateRoute s uid bdId now).2 uid).map User.walletBalance
          = some (u.walletBalance - bd.amount)) ∧
      (u.walletBalance < bd.amount →
        joinBlindDateRoute s uid bdId now
          = (Except.error "Insufficient wallet balance", s))) := by
  constructor
  · intro s uid amt u hu
    constructor
    · intro hle
      have hnot : ¬ u.walletBalance < amt := not_lt.mpr hle
      constructor
      · refine ⟨{ id := s.currentBlindDateId, user1Id := uid, user2Id := none,
                  amount := amt, status := "pending", scheduledFor := none }, ?_⟩
        simp [createBlindDateRoute, hu, hnot]
      · simp only [createBlindDateRoute, hu, hnot, if_false]
        rw [getUser_updateUser _ uid
              (fun v => { v with walletBalance := u.walletBalance - amt })
              (fun v => rfl),
            getUser_set_blindDates, hu]
        rfl
    · intro hlt
      simp [createBlindDateRoute, hu, hlt]
  · intro s uid bdId now u bd hu hbd
    constructor
    · intro hle
      have hnot : ¬ u.walletBalance < bd.amount := not_lt.mpr hle
      constructor
      · exact ⟨matchUpdate uid now bd, by simp [joinBlindDateRoute, hu, hbd, hnot]⟩
      · simp only [joinBlindDateRoute, hu, hbd, hnot, if_false]
        rw [getUser_updateUser _ uid
              (fun v => { v with walletBalance := u.walletBalance - bd.amount })
              (fun v => rfl),
            getUser_updateBlindDate, hu]
        rfl
    · intro hlt
      simp [joinBlindDateRoute, hu, hbd, hlt]

/-- Witness for C1 at concrete states: user 1 (balance 100) creates a
30-unit blind date and joins one, ending at balance 70; a 1000-unit create
is rejected leaving the store untouched. -/
theorem blindDate_wallet_invariant_witness :
    (∃ b, (createBlindDateRoute store1 1 30).1 = Except.ok b) ∧
    (getUser (createBlindDateRoute store1 1 30).2 1).map User.walletBalance
      = some (100 - 30) ∧
    (∃ b, (joinBlindDateRoute store1 1 1 0).1 = Except.ok b) ∧
    createBlindDateRoute store1 1 1000
      = (Except.error "Insufficient wallet balance", store1) := by
  have h := blindDate_wallet_invariant
  have hu : getUser store1 1 = some user1ex := rfl
  have hbd : getBlindDate store1 1 = some bd1ex := rfl
  exact ⟨((h.1 store1 1 30 user1ex hu).1 (by norm_num [user1ex])).1,
         ((h.1 store1 1 30 user1ex hu).1 (by norm_num [user1ex])).2,
         ((h.2 store1 1 1 0 user1ex bd1ex hu hbd).1 (by norm_num [user1ex, bd1ex])).1,
         (h.1 store1 1 1000 user1ex hu).2 (by norm_num [user1ex])⟩

/-- Claim C2 counterexample: the claim says a join by the original requester
must be rejected, but user 1 joins its own pending blind date and the join
succeeds, matching the date to its creator and debiting the wallet. -/
theorem join_self_counterexample :
    (getBlindDate storeSelf 1).map BlindDate.user1Id = some 1 ∧
    (getBlindDate storeSelf 1).map BlindDate.status = some "pending" ∧
    (joinBlindDateRoute storeSelf 1 1 0).1
      = Except.ok { id := 1, user1Id := 1, user2Id := some 1, amount := 30,
                    status := "matched", scheduledFor := some (0 + 86400000) } ∧
    (getUser (joinBlindDateRoute storeSelf 1 1 0).2 1).map User.walletBalance
      = some 70 := by
  refine ⟨rfl, rfl, rfl, ?_⟩
  with_unfolding_all decide

/-- Claim C2 (amended): the join succeeds iff the user and the blind date
exist and the joiner's wallet covers the amount; the handler checks neither
the pending status nor that the joiner differs from `user1Id`.  On success
the date is matched to the joiner with `scheduledFor = now + 24h` and the
joiner is debited; on failure the corresponding error is reported with no
state change. -/
theorem join_route_characterization :
    ∀ (s : Store) (uid bdId : Nat) (now : Int),
      ((getUser s uid = none ∨ getBlindDate s bdId = none) →
        joinBlindDateRoute s uid bdId now
          = (Except.error "User or blind date not found", s)) ∧
      (∀ u bd, getUser s uid = some u → getBlindDate s bdId = some bd →
        (u.walletBalance < bd.amount →
          joinBlindDateRoute s uid bdId now
            = (Except.error "Insufficient wallet balance", s)) ∧
        (bd.amount ≤ u.walletBalance →
          (joinBlindDateRoute s uid bdId now).1
            = Except.ok (matchUpdate uid now bd) ∧
          getBlindDate (joinBlindDateRoute s uid bdId now).2 bdId
            = some (matchUpdate uid now bd) ∧
          (getUser (joinBlindDateRoute s uid bdId now).2 uid).map
              User.walletBalance = some (u.walletBalance - bd.amount))) := by
  intro s uid bdId now
  constructor
  · rintro (hnone | hnone) <;>
      · cases hu : getUser s uid <;> cases hbd : getBlindDate s bdId <;>
          simp_all [joinBlindDateRoute]
  · intro u bd hu hbd
    constructor
    · intro hlt
      simp [joinBlindDateRoute, hu, hbd, hlt]
    · intro hle
      have hnot : ¬ u.walletBalance < bd.amount := not_lt.mpr hle
      refine ⟨by simp [joinBlindDateRoute, hu, hbd, hnot], ?_, ?_⟩
      · simp only [joinBlindDateRoute, hu, hbd, hnot, if_false]
        rw [getBlindDate_updateUser,
            getBlindDate_updateBlindDate _ bdId (matchUpdate uid now)
              (fun b => rfl), hbd]
        rfl
      · simp only [joinBlindDateRoute, hu, hbd, hnot, if_false]
        rw [getUser_updateUser _ uid
              (fun v => { v with walletBalance := u.walletBalance - bd.amount })
              (fun v => rfl),
            getUser_updateBlindDate, hu]
        rfl

/-- Witness for the amended C2: user 1 joins the pending date of user 7 in
`store1` and all three success effects hold; a join by the nonexistent
user 2 is rejected with the not-found error and no state change. -/
theorem join_route_characterization_witness :
    (joinBlindDateRoute store1 1 1 5).1 = Except.ok (matchUpdate 1 5 bd1ex) ∧
    getBlindDate (joinBlindDateRoute store1 1 1 5).2 1
      = some (matchUpdate 1 5 bd1ex) ∧
    (getUser (joinBlindDateRoute store1 1 1 5).2 1).map User.walletBalance
      = some (100 - 30) ∧
    joinBlindDateRoute store1 2 1 0
      = (Except.error "User or blind date not found", store1) := by
  have h1 := ((join_route_characterization store1 1 1 5).2 user1ex bd1ex rfl rfl).2
    (by norm_num [user1ex, bd1ex])
  have h2 := (join_route_characterization store1 2 1 0).1 (Or.inl rfl)
  exact ⟨h1.1, h1.2.1, h1.2.2, h2⟩

/-! ### Swipes and matches (`POST /api/swipe`) -/


/-- `MemStorage.createSwipe`: append the new swipe under the next id. -/
def createSwipe (s : Store) (swiperId swipedId : Nat) (action : String) :
    Swipe × Store :=
  let sw : Swipe := { id := s.currentSwipeId, swiperId := swiperId,
                      swipedId := swipedId, action := action }
  (sw, { s with swipes := s.swipes ++ [sw],
                currentSwipeId := s.currentSwipeId + 1 })

/-- `MemStorage.createMatch`: append the new match under the next id. -/
def createMatch (s : Store) (user1Id user2Id : Nat) : MatchRec × Store :=
  let m : MatchRec := { id := s.currentMatchId, user1Id := user1Id,
                        user2Id := user2Id, isActive := true }
  (m, { s with matchList := s.matchList ++ [m],
               currentMatchId := s.currentMatchId + 1 })

/-- The three outcomes of the swipe handler: 400 "Already swiped", a swipe
without a match, or a swipe together with a freshly created match. -/
inductive SwipeResult where
  | alreadySwiped : SwipeResult
  | swiped (sw : Swipe) : SwipeResult
  | matched (sw : Swipe) (m : MatchRec) : SwipeResult
deriving DecidableEq

/-- The `POST /api/swipe` handler: reject a duplicate ordered pair, else
record the swipe; only for a `"like"` is the reciprocal swipe looked up
(on the store that already holds the new swipe) and, if it is itself a
`"like"`, a match `(swiperId, swipedId)` is created. -/
def swipeRoute (s : Store) (swiperId swipedId : Nat) (action : String) :
    SwipeResult × Store :=
  match getSwipe s swiperId swipedId with
  | some _ => (.alreadySwiped, s)
  | none =>
    let r1 := createSwipe s swiperId swipedId action
    if action == "like" then
      match getSwipe r1.2 swipedId swiperId with
      | some recip =>
        if recip.action == "like" then
          let r2 := createMatch r1.2 swiperId swipedId
          (.matched r1.1 r2.1, r2.2)
        else (.swiped r1.1, r1.2)
      | none => (.swiped r1.1, r1.2)
    else (.swiped r1.1, r1.2)

/-- Number of stored matches on the unordered pair `{a, b}`. -/
def matchCountFor (s : Store) (a b : Nat) : Nat :=
  (s.matchList.filter fun m =>
    (m.user1Id == a && m.user2Id == b) || (m.user1Id == b && m.user2Id == a)).length

theorem find?_append_or {α : Type} (p : α → Bool) (l1 l2 : List α) :
    (l1 ++ l2).find? p = (l1.find? p).or (l2.find? p) := by
  induction l1 with
  | nil => simp [Option.or]
  | cons x l ih => by_cases h : p x <;> simp [List.find?, h, ih, Option.or]

theorem getSwipe_createSwipe (s : Store) (x y u v : Nat) (act : String) :
    getSwipe (createSwipe s x y act).2 u v
      = (getSwipe s u v).or
          (if x == u && y == v then some (createSwipe s x y act).1 else none) := by
  simp only [getSwipe, createSwipe, find?_append_or, List.find?]
  cases hxy : (x == u && y == v) <;> simp [hxy]

theorem getSwipe_createMatch (s : Store) (x y u v : Nat) :
    getSwipe (createMatch s x y).2 u v = getSwipe s u v := rfl

theorem matchCountFor_createSwipe (s : Store) (x y a b : Nat) (act : String) :
    matchCountFor (createSwipe s x y act).2 a b = matchCountFor s a b := rfl

theorem matchCountFor_createMatch (s : Store) (x y a b : Nat) :
    matchCountFor (createMatch s x y).2 a b
      = matchCountFor s a b
        + (if (x == a && y == b) || (x == b && y == a) then 1 else 0) := by
  simp only [matchCountFor, createMatch, List.filter_append, List.length_append,
    List.filter]
  cases h : ((x == a && y == b) || (x == b && y == a)) <;> simp [h]

/-- Claim C3: a mutual like (in either order, covered by symmetry of the
quantifiers) creates exactly one match for the unordered pair, and any
swipe on an ordered pair that already has a swipe is rejected as a
duplicate with no state change. -/
theorem mutual_like_unique_match :
    (∀ (s : Store) (a b : Nat) (act : String), (getSwipe s a b).isSome = true →
      swipeRoute s a b act = (SwipeResult.alreadySwiped, s)) ∧
    (∀ (s : Store) (a b : Nat), a ≠ b →
      getSwipe s a b = none → getSwipe s b a = none →
      matchCountFor (swipeRoute (swipeRoute s a b "like").2 b a "like").2 a b
        = matchCountFor s a b + 1 ∧
      (∀ act, swipeRoute (swipeRoute (swipeRoute s a b "like").2 b a "like").2 a b act
        = (SwipeResult.alreadySwiped,
           (swipeRoute (swipeRoute s a b "like").2 b a "like").2)) ∧
      (∀ act, swipeRoute (swipeRoute (swipeRoute s a b "like").2 b a "like").2 b a act
        = (SwipeResult.alreadySwiped,
           (swipeRoute (swipeRoute s a b "like").2 b a "like").2))) := by
  constructor
  · intro s a b act h
    cases hsw : getSwipe s a b with
    | none => rw [hsw] at h; simp at h
    | some sw => simp [swipeRoute, hsw]
  · intro s a b hab h1 h2
    have hab' : (a == b) = false := beq_eq_false_iff_ne.mpr hab
    have hba' : (b == a) = false := beq_eq_false_iff_ne.mpr (Ne.symm hab)
    have key2 : getSwipe (createSwipe s a b "like").2 b a = none := by
      rw [getSwipe_createSwipe, h2]
      simp [hab', Option.or]
    have e1 : swipeRoute s a b "like"
        = (SwipeResult.swiped (createSwipe s a b "like").1,
           (createSwipe s a b "like").2) := by
      simp only [swipeRoute, h1, key2]
      simp
    have key3 : getSwipe (createSwipe (createSwipe s a b "like").2 b a "like").2 a b
        = some (createSwipe s a b "like").1 := by
      rw [getSwipe_createSwipe, getSwipe_createSwipe, h1]
      simp [hba', Option.or]
    have e2 : swipeRoute (createSwipe s a b "like").2 b a "like"
        = (SwipeResult.matched
             (createSwipe (createSwipe s a b "like").2 b a "like").1
             (createMatch (createSwipe (createSwipe s a b "like").2 b a "like").2
               b a).1,
           (createMatch (createSwipe (createSwipe s a b "like").2 b a "like").2
             b a).2) := by
      simp only [swipeRoute, key2, key3]
      simp [createSwipe]
    rw [e1]
    simp only []
    rw [show (SwipeResult.swiped (createSwipe s a b "like").1,
          (createSwipe s a b "like").2).2 = (createSwipe s a b "like").2 from rfl,
        e2]
    refine ⟨?_, ?_, ?_⟩
    · rw [show (SwipeResult.matched
            (createSwipe (createSwipe s a b "like").2 b a "like").1
            (createMatch (createSwipe (createSwipe s a b "like").2 b a "like").2
              b a).1,
          (createMatch (createSwipe (createSwipe s a b "like").2 b a "like").2
            b a).2).2
          = (createMatch (createSwipe (createSwipe s a b "like").2 b a "like").2
              b a).2 from rfl,
        matchCountFor_createMatch, matchCountFor_createSwipe,
        matchCountFor_createSwipe]
      simp [hab', hba']
    · intro act
      have key4 : getSwipe
          (createMatch (createSwipe (createSwipe s a b "like").2 b a "like").2
            b a).2 a b
          = some (createSwipe s a b "like").1 := by
        rw [getSwipe_createMatch]; exact key3
      simp [swipeRoute, key4]
    · intro act
      have key5 : getSwipe
          (createMatch (createSwipe (createSwipe s a b "like").2 b a "like").2
            b a).2 b a
          = some (createSwipe (createSwipe s a b "like").2 b a "like").1 := by
        rw [getSwipe_createMatch, getSwipe_createSwipe, key2]
        simp [Option.or]
      simp [swipeRoute, key5]

/-- Witness for C3: in `store1` (no swipes yet) users 1 and 2 like each
other; exactly one match exists for the pair, and a further swipe by user 1
on user 2 is rejected as a duplicate. -/
theorem mutual_like_unique_match_witness :
    matchCountFor (swipeRoute (swipeRoute store1 1 2 "like").2 2 1 "like").2 1 2
      = matchCountFor store1 1 2 + 1 ∧
    swipeRoute (swipeRoute (swipeRoute store1 1 2 "like").2 2 1 "like").2 1 2 "pass"
      = (SwipeResult.alreadySwiped,
         (swipeRoute (swipeRoute store1 1 2 "like").2 2 1 "like").2) := by
  have h := mutual_like_unique_match.2 store1 1 2 (by decide) rfl rfl
  exact ⟨h.1, h.2.1 "pass"⟩

/-- A store holding a single existing `"like"` from user 1 to user 2. -/
def storeC4 : Store :=
  { store1 with
      swipes := [{ id := 1, swiperId := 1, swipedId := 2, action := "like" }],
      currentSwipeId := 2 }

/-- Claim C4 counterexample: user 1 already likes user 2, user 2 answers
with a `super_like`, and no match is created: the handler only runs the
reciprocal check for `action == "like"`. -/
theorem superlike_no_match_counterexample :
    (getSwipe storeC4 1 2).map Swipe.action = some "like" ∧
    (swipeRoute storeC4 2 1 "super_like").1
      = SwipeResult.swiped
          { id := 2, swiperId := 2, swipedId := 1, action := "super_like" } ∧
    (swipeRoute storeC4 2 1 "super_like").2.matchList = [] := by
  refine ⟨rfl, ?_, ?_⟩ <;> decide

/-- Claim C4 (amended): only a `"like"` triggers the reciprocal-match
check; a swipe with any other action (`pass`, `super_like`) records the
swipe but never creates a match, whatever the reciprocal state. -/
theorem non_like_never_matches :
    ∀ (s : Store) (a b : Nat) (act : String), act ≠ "like" →
      (swipeRoute s a b act).2.matchList = s.matchList ∧
      ∀ sw m, (swipeRoute s a b act).1 ≠ SwipeResult.matched sw m := by
  intro s a b act hact
  have hb : (act == "like") = false := beq_eq_false_iff_ne.mpr hact
  cases hsw : getSwipe s a b with
  | some sw => simp [swipeRoute, hsw]
  | none => simp [swipeRoute, hsw, hb, createSwipe]

/-- Witness for the amended C4 at a concrete input: a `pass` by user 1 on
user 2 in `store1` leaves the match table unchanged and does not report a
match. -/
theorem non_like_never_matches_witness :
    (swipeRoute store1 1 2 "pass").2.matchList = store1.matchList ∧
    (swipeRoute store1 1 2 "pass").1
      ≠ SwipeResult.matched
          { id := 1, swiperId := 1, swipedId := 2, action := "pass" }
          { id := 1, user1Id := 1, user2Id := 2, isActive := true } := by
  have h := non_like_never_matches store1 1 2 "pass" (by decide)
  exact ⟨h.1, h.2 _ _⟩

/-! ### Content filter of `server/storage.ts` and `POST /api/messages` -/

/-- ASCII lowercasing (the moderation texts are ASCII; `toLowerCase` of the
source agrees with this on them). -/
def lowerChar (c : Char) : Char :=
  if 'A' ≤ c ∧ c ≤ 'Z' then Char.ofNat (c.toNat + 32) else c

/-- Lowercase a character list. -/
def lowerStr (l : List Char) : List Char := l.map lowerChar

/-- Substring containment of `pat` in `l` (JS `String.includes` and the
existential reading of a `g`-regex alternation of literals). -/
def containsSeq (pat l : List Char) : Bool :=
  l.tails.any (fun t => pat.isPrefixOf t)

/-- ASCII part of the JS `\s` class (the moderation texts contain no
non-ASCII whitespace). -/
def isJsWS (c : Char) : Bool :=
  c == ' ' || c == '\t' || c == '\n' || c == '\r' || c == '\x0b' || c == '\x0c'

/-- The separator class `[-.\s]` of the phone regexes. -/
def isSepChar (c : Char) : Bool := c == '-' || c == '.' || isJsWS c

/-- Consume exactly `n` digits, returning the rest. -/
def digitsExact : Nat → List Char → Option (List Char)
  | 0, s => some s
  | _ + 1, [] => none
  | n + 1, c :: s => if c.isDigit then digitsExact n s else none

/-- The two ways an optional single-character atom `x?` can consume input
(JS preference order: consume first). -/
def optChoices (p : Char → Bool) (s : List Char) : List (List Char) :=
  match s with
  | [] => [[]]
  | c :: rest => if p c then [rest, c :: rest] else [c :: rest]

/-- Branch `(\+?1?[-.\s]?)?\(?[0-9]{3}\)?[-.\s]?[0-9]{3}[-.\s]?[0-9]{4}` of
`phoneNumberRegex`, as an existence test at the start of `s` (the outer
optional group is redundant since every atom inside it is optional). -/
def phonePat1 (s : List Char) : Bool :=
  (optChoices (fun c => c == '+') s).any fun s1 =>
  (optChoices (fun c => c == '1') s1).any fun s2 =>
  (optChoices isSepChar s2).any fun s3 =>
  (optChoices (fun c => c == '(') s3).any fun s4 =>
  match digitsExact 3 s4 with
  | none => false
  | some s5 =>
    (optChoices (fun c => c == ')') s5).any fun s6 =>
    (optChoices isSepChar s6).any fun s7 =>
    match digitsExact 3 s7 with
    | none => false
    | some s8 =>
      (optChoices isSepChar s8).any fun s9 => (digitsExact 4 s9).isSome

/-- Branch `(\d{10})` of `phoneNumberRegex`. -/
def phonePat2 (s : List Char) : Bool := (digitsExact 10 s).isSome

/-- Branch `(\d{3}[-.\s]?\d{3}[-.\s]?\d{4})` of `phoneNumberRegex`. -/
def phonePat3 (s : List Char) : Bool :=
  match digitsExact 3 s with
  | none => false
  | some s1 =>
    (optChoices isSepChar s1).any fun s2 =>
    match digitsExact 3 s2 with
    | none => false
    | some s3 =>
      (optChoices isSepChar s3).any fun s4 => (digitsExact 4 s4).isSome

/-- Branch `(\(\d{3}\)\s?\d{3}[-.\s]?\d{4})` of `phoneNumberRegex`. -/
def phonePat4 (s : List Char) : Bool :=
  match s with
  | '(' :: s0 =>
    (match digitsExact 3 s0 with
     | some (')' :: s1) =>
       (optChoices isJsWS s1).any fun s2 =>
       match digitsExact 3 s2 with
       | none => false
       | some s3 =>
         (optChoices isSepChar s3).any fun s4 => (digitsExact 4 s4).isSome
     | _ => false)
  | _ => false

/-- The word alternation of `phoneWordRegex` (`oh` but no bare `o`). -/
def phoneNumberWords : List String :=
  ["zero", "one", "two", "three", "four", "five", "six", "seven", "eight",
   "nine", "oh"]

/-- `containsPhoneNumber` of `server/storage.ts`:
`phoneNumberRegex.test(text) || phoneWordRegex.test(text)`, modelled with a
fresh evaluation of each regex (the source keeps the `g`-flagged regexes at
module level, so their `lastIndex` persists across calls; the tests below
take the per-call reading with `lastIndex = 0`). -/
def containsPhoneNumber (t : String) : Bool :=
  (t.data.tails.any fun s => phonePat1 s || phonePat2 s || phonePat3 s || phonePat4 s)
  || (phoneNumberWords.any fun w => containsSeq w.data (lowerStr t.data))

/-- `MemStorage.createMessage`. -/
def createMessage (s : Store) (matchId senderId : Nat) (content : String) :
    Message × Store :=
  let msg : Message := { id := s.currentMessageId, matchId := matchId,
                         senderId := senderId, content := content,
                         isRead := false }
  (msg, { s with messages := s.messages ++ [msg],
                 currentMessageId := s.currentMessageId + 1 })

/-- `MemStorage.createViolation` (status starts `"pending"`). -/
def createViolation (s : Store) (userId : Nat) (vtype content : String)
    (fineAmount : ℚ) : Violation × Store :=
  let v : Violation := { id := s.currentViolationId, userId := userId,
                         type := vtype, content := content,
                         fineAmount := fineAmount, status := "pending" }
  (v, { s with violations := s.violations ++ [v],
               currentViolationId := s.currentViolationId + 1 })

/-- Outcome of `POST /api/messages`: the stored message, or the 403
violation response. -/
inductive MessageResult where
  | sent (m : Message) : MessageResult
  | violation : MessageResult
deriving DecidableEq

/-- The `POST /api/messages` handler: when the content trips
`containsPhoneNumber`, create a `phone_number` violation with the fixed
fine `100.00`, suspend the sender until `now + 24h`, and do not store the
message; otherwise store the message. -/
def messageRoute (s : Store) (matchId senderId : Nat) (content : String)
    (now : Int) : MessageResult × Store :=
  if containsPhoneNumber content then
    let s1 := (createViolation s senderId "phone_number" content 100).2
    (.violation,
     updateUser s1 senderId
       (fun u => { u with suspendedUntil := some (now + 86400000) }))
  else
    let r := createMessage s matchId senderId content
    (.sent r.1, r.2)

theorem getUser_createViolation (s : Store) (uid : Nat) (vt ct : String)
    (amt : ℚ) (x : Nat) :
    getUser (createViolation s uid vt ct amt).2 x = getUser s x := rfl

/-- Claim C5: a message whose content is detected as a violation is not
stored, produces a `phone_number` violation with the fixed fine `100.00`
for the sender, and suspends the sender until `now + 24h`; a clean message
is stored and produces neither a violation nor a suspension. -/
theorem message_phone_violation_flow :
    ∀ (s : Store) (matchId senderId : Nat) (content : String) (now : Int),
      (containsPhoneNumber content = true →
        (messageRoute s matchId senderId content now).2.messages = s.messages ∧
        (messageRoute s matchId senderId content now).2.violations
          = s.violations ++
            [{ id := s.currentViolationId, userId := senderId,
               type := "phone_number", content := content, fineAmount := 100,
               status := "pending" }] ∧
        (∀ u, getUser s senderId = some u →
          getUser (messageRoute s matchId senderId content now).2 senderId
            = some { u with suspendedUntil := some (now + 86400000) }) ∧
        (messageRoute s matchId senderId content now).1
          = MessageResult.violation) ∧
      (containsPhoneNumber content = false →
        (messageRoute s matchId senderId content now).2.messages
          = s.messages ++
            [{ id := s.currentMessageId, matchId := matchId,
               senderId := senderId, content := content, isRead := false }] ∧
        (messageRoute s matchId senderId content now).2.violations
          = s.violations ∧
        (messageRoute s matchId senderId content now).2.users = s.users ∧
        (messageRoute s matchId senderId content now).1
          = MessageResult.sent
              { id := s.currentMessageId, matchId := matchId,
                senderId := senderId, content := content, isRead := false }) := by
  intro s matchId senderId content now
  constructor
  · intro h
    refine ⟨?_, ?_, ?_, ?_⟩
    · simp [messageRoute, h, createViolation, updateUser]
    · simp [messageRoute, h, createViolation, updateUser]
    · intro u hu
      simp only [messageRoute, h, if_true]
      rw [getUser_updateUser _ senderId
            (fun v => { v with suspendedUntil := some (now + 86400000) })
            (fun v => rfl),
          getUser_createViolation, hu]
      rfl
    · simp [messageRoute, h]
  · intro h
    refine ⟨?_, ?_, ?_, ?_⟩ <;> simp [messageRoute, h, createMessage]

/-- Witness for C5: "call me at five" trips the filter (the word regex
matches any number word), is not stored, and suspends user 1; "hi" is
clean and stored with no violation. -/
theorem message_phone_violation_flow_witness :
    containsPhoneNumber "call me at five" = true ∧
    (messageRoute store1 1 1 "call me at five" 0).2.messages = store1.messages ∧
    getUser (messageRoute store1 1 1 "call me at five" 0).2 1
      = some { user1ex with suspendedUntil := some (0 + 86400000) } ∧
    containsPhoneNumber "hi" = false ∧
    (messageRoute store1 1 1 "hi" 0).2.violations = store1.violations := by
  have hv : containsPhoneNumber "call me at five" = true := by decide
  have hc : containsPhoneNumber "hi" = false := by decide
  have h1 := (message_phone_violation_flow store1 1 1 "call me at five" 0).1 hv
  have h2 := (message_phone_violation_flow store1 1 1 "hi" 0).2 hc
  exact ⟨hv, h1.1, h1.2.2.1 user1ex rfl, hc, h2.2.1⟩

/-! ### Nearby-user query (`MemStorage.getUsersNearby`) -/

/-- The distance acceptance test of `getUsersNearby`.  The source computes
`Math.sqrt((lat-userLat)^2 + (lng-userLng)^2) * 111 <= radius`; as the left
side is nonnegative this is equivalent to the squared comparison used here,
which is exact over `ℚ` (the equivalence with the square-root form is proved
in the claim C8 theorem below). -/
def withinKm (lat lng ulat ulng r : ℚ) : Bool :=
  decide (0 ≤ r ∧ ((lat - ulat) ^ 2 + (lng - ulng) ^ 2) * 111 ^ 2 ≤ r ^ 2)

/-- `MemStorage.getUsersNearby`: drop excluded ids and users without
coordinates, then keep those within `radius` km by the planar
approximation. -/
def getUsersNearby (s : Store) (lat lng radius : ℚ) (excludeIds : List Nat) :
    List User :=
  s.users.filter fun u =>
    if excludeIds.contains u.id then false
    else
      match u.latitude, u.longitude with
      | some ulat, some ulng => withinKm lat lng ulat ulng radius
      | _, _ => false

/-- A user ~5.55 km (0.05 degrees) from the origin. -/
def geoUser1 : User :=
  { id := 11, walletBalance := 0, latitude := some (1/20),
    longitude := some 0, suspendedUntil := none }

/-- A user ~111 km (1 degree) from the origin. -/
def geoUser2 : User :=
  { id := 12, walletBalance := 0, latitude := some 1, longitude := some 0,
    suspendedUntil := none }

/-- A user without coordinates. -/
def geoUser3 : User :=
  { id := 13, walletBalance := 0, latitude := none, longitude := none,
    suspendedUntil := none }

/-- Store for the nearby-query scenarios. -/
def geoStore : Store :=
  { users := [geoUser1, geoUser2, geoUser3], blindDates := [], swipes := [],
    matchList := [], messages := [], violations := [], currentBlindDateId := 1,
    currentSwipeId := 1, currentMatchId := 1, currentMessageId := 1,
    currentViolationId := 1 }

/-- Claim C8: the nearby-user query accepts a candidate iff
`sqrt((lat-userLat)^2 + (lng-userLng)^2) * 111 <= radius` (planar
approximation), and at the origin with radius 10 the user at `(0.05, 0)` is
included while the one at `(1, 0)` is excluded. -/
theorem nearby_planar_distance :
    (∀ lat lng ulat ulng r : ℚ,
      withinKm lat lng ulat ulng r = true ↔
        Real.sqrt (((lat : ℝ) - (ulat : ℝ)) ^ 2 + ((lng : ℝ) - (ulng : ℝ)) ^ 2)
            * 111 ≤ (r : ℝ)) ∧
    getUsersNearby geoStore 0 0 10 [] = [geoUser1] := by
  constructor
  · intro lat lng ulat ulng r
    rw [withinKm, decide_eq_true_iff]
    have hx0 : (0:ℝ) ≤ ((lat : ℝ) - ulat) ^ 2 + ((lng : ℝ) - ulng) ^ 2 := by
      positivity
    constructor
    · rintro ⟨hr, hd⟩
      have hr' : (0:ℝ) ≤ (r : ℝ) := by exact_mod_cast hr
      have hd' : (((lat : ℝ) - ulat) ^ 2 + ((lng : ℝ) - ulng) ^ 2) * 111 ^ 2
          ≤ (r : ℝ) ^ 2 := by exact_mod_cast hd
      have e : Real.sqrt (((lat : ℝ) - ulat) ^ 2 + ((lng : ℝ) - ulng) ^ 2) * 111
          = Real.sqrt ((((lat : ℝ) - ulat) ^ 2 + ((lng : ℝ) - ulng) ^ 2)
              * 111 ^ 2) := by
        rw [Real.sqrt_mul hx0, Real.sqrt_sq (by norm_num : (0:ℝ) ≤ 111)]
      rw [e]
      calc Real.sqrt ((((lat : ℝ) - ulat) ^ 2 + ((lng : ℝ) - ulng) ^ 2) * 111 ^ 2)
          ≤ Real.sqrt ((r : ℝ) ^ 2) := Real.sqrt_le_sqrt hd'
        _ = (r : ℝ) := Real.sqrt_sq hr'
    · intro h
      have hge : (0:ℝ)
          ≤ Real.sqrt (((lat : ℝ) - ulat) ^ 2 + ((lng : ℝ) - ulng) ^ 2) * 111 := by
        positivity
      have hr' : (0:ℝ) ≤ (r : ℝ) := le_trans hge h
      have h2 : (Real.sqrt (((lat : ℝ) - ulat) ^ 2 + ((lng : ℝ) - ulng) ^ 2)
          * 111) ^ 2 ≤ (r : ℝ) ^ 2 := pow_le_pow_left₀ hge h 2
      rw [mul_pow, Real.sq_sqrt hx0] at h2
      exact ⟨by exact_mod_cast hr', by exact_mod_cast h2⟩
  · with_unfolding_all decide

/-- Claim C10: the nearby query never returns a user with a missing
latitude or longitude, nor one whose id is excluded. -/
theorem nearby_filters_nulls_and_excluded :
    ∀ (s : Store) (lat lng radius : ℚ) (excludeIds : List Nat) (u : User),
      u ∈ getUsersNearby s lat lng radius excludeIds →
        u.latitude ≠ none ∧ u.longitude ≠ none ∧ u.id ∉ excludeIds := by
  intro s lat lng radius ex u hu
  rw [getUsersNearby, List.mem_filter] at hu
  obtain ⟨-, hcond⟩ := hu
  by_cases hc : ex.contains u.id = true
  · rw [if_pos hc] at hcond
    exact absurd hcond (by simp)
  · have hni : u.id ∉ ex := by
      intro hmem
      exact hc (by simpa using hmem)
    rw [if_neg hc] at hcond
    cases hlat : u.latitude with
    | none =>
      rw [hlat] at hcond
      cases u.longitude <;> simp at hcond
    | some ulat =>
      cases hlng : u.longitude with
      | none =>
        rw [hlat, hlng] at hcond
        simp at hcond
      | some ulng => exact ⟨by simp [hlat], by simp [hlng], hni⟩

/-- Witness for C10 at a concrete input: `geoUser1` is returned by the
query on `geoStore`, hence has coordinates and is not excluded. -/
theorem nearby_filters_nulls_and_excluded_witness :
    geoUser1.latitude ≠ none ∧ geoUser1.longitude ≠ none ∧
      geoUser1.id ∉ ([] : List Nat) :=
  nearby_filters_nulls_and_excluded geoStore 0 0 10 [] geoUser1
    (by with_unfolding_all decide)

/-! ### The `ContentModerator` module -/

theorem dropWhile_length_le {α : Type} (p : α → Bool) :
    ∀ l : List α, (l.dropWhile p).length ≤ l.length := by
  intro l
  induction l with
  | nil => simp
  | cons a l ih =>
    rw [List.dropWhile]
    by_cases h : p a
    · simp only [h]
      exact le_trans ih (Nat.le_succ _)
    · simp [h]

/-- JS `text.split(/\s+/)`: split at each maximal whitespace run, keeping
the (possibly empty) pieces before the first run and after the last. -/
def wsSplit (l : List Char) : List (List Char) :=
  match l with
  | [] => [[]]
  | c :: rest =>
    if isJsWS c then [] :: wsSplit (rest.dropWhile isJsWS)
    else
      match wsSplit rest with
      | [] => [[c]]
      | h :: t => (c :: h) :: t
termination_by l.length
decreasing_by
  · exact Nat.lt_succ_of_le (dropWhile_length_le _ _)
  · simp

/-- JS `String.trim` (ASCII whitespace). -/
def trimWS (l : List Char) : List Char :=
  ((l.dropWhile isJsWS).reverse.dropWhile isJsWS).reverse

/-- The `numberWords` list of `detectSpelledPhoneNumbers` (includes `o`). -/
def numberWordsList : List String :=
  ["zero", "one", "two", "three", "four", "five", "six", "seven", "eight",
   "nine", "oh", "o"]

/-- One match found by `detectPhoneNumbers` (`PhoneNumberMatch`). -/
structure PhoneMatch where
  text : String
  type : String
  confidence : ℚ
  startPos : Nat
  endPos : Nat
deriving DecidableEq

/-- `ModerationConfig`. -/
structure ModerationConfig where
  strictMode : Bool
  checkPhoneNumbers : Bool
  checkInappropriateContent : Bool
  checkSpam : Bool
  customBlockedWords : List String
deriving DecidableEq

/-- The defaults installed by the `ContentModerator` constructor. -/
def defaultConfig : ModerationConfig :=
  { strictMode := false, checkPhoneNumbers := true,
    checkInappropriateContent := true, checkSpam := true,
    customBlockedWords := [] }

/-- The inner `j` loop of `detectSpelledPhoneNumbers`: starting at `j` with
the running `sequence`/`consecutiveNumbers` state, walk up to `stop`
(`min (i+15) words.length`); a number word extends the run, a non-number
word either emits the run (when it already has length at least 7) or aborts;
reaching `stop` emits nothing. -/
def spelledGo (words : List String) (stop j : Nat) (seq : List Char)
    (consec : Nat) : Option (List Char × Nat) :=
  if h : j < stop then
    let w := words.getD j ""
    if numberWordsList.contains w then
      spelledGo words stop (j + 1) (seq ++ w.data ++ [' ']) (consec + 1)
    else if 7 ≤ consec then some (seq, consec)
    else none
  else none
termination_by stop - j
decreasing_by omega

/-- `ContentModerator.detectSpelledPhoneNumbers`: lowercase, split on
whitespace, and for every start index `i < words.length - 6` run the inner
loop; an emitted run becomes a `spelled` match with confidence
`min 0.9 (run/10)` and the trimmed sequence as text. -/
def detectSpelledPhoneNumbers (t : String) : List PhoneMatch :=
  let words := (wsSplit (lowerStr t.data)).map (fun l => String.mk l)
  (List.range (words.length - 6)).filterMap fun i =>
    (spelledGo words (min (i + 15) words.length) i [] 0).map fun p =>
      { text := String.mk (trimWS p.1), type := "spelled",
        confidence := min (9/10 : ℚ) ((p.2 : ℚ) / 10),
        startPos := 0, endPos := 0 }

/-- JS `\w` (ASCII word character). -/
def isWordChar (c : Char) : Bool := c.isAlphanum || c == '_'

/-- A `\b` boundary between the previous character and the head of `s`. -/
def boundaryAt (prev : Option Char) (s : List Char) : Bool :=
  let pw := match prev with
    | some c => isWordChar c
    | none => false
  let cw := match s with
    | c :: _ => isWordChar c
    | [] => false
  pw != cw

/-- A trailing `\b` after a pattern ending in a digit: the next character
(head of the remainder) must not be a word character. -/
def boundaryAfterDigits (rem : List Char) : Bool :=
  match rem with
  | c :: _ => !(isWordChar c)
  | [] => true

/-- Remainders after `p*`, longest consumption first (greedy order). -/
def genStar (p : Char → Bool) (s : List Char) : List (List Char) :=
  let run := (s.takeWhile p).length
  (List.range (run + 1)).map fun i => s.drop (run - i)

/-- Remainders after `p+`, longest consumption first (greedy order). -/
def genPlus (p : Char → Bool) (s : List Char) : List (List Char) :=
  let run := (s.takeWhile p).length
  (List.range run).map fun i => s.drop (run - i)

/-- Remainders after `\d{lo,hi}`, longest consumption first. -/
def digitRange (lo hi : Nat) (s : List Char) : List (List Char) :=
  let run := min hi (s.takeWhile Char.isDigit).length
  if run < lo then [] else (List.range (run - lo + 1)).map fun i => s.drop (run - i)

/-- The symbol class `[-_.*#@!]` of the disguised patterns. -/
def isDisgSym (c : Char) : Bool :=
  c == '-' || c == '_' || c == '.' || c == '*' || c == '#' || c == '@' || c == '!'

/-- Standard pattern 1,
`(\+?1?[-.\s]?)?\(?[0-9]{3}\)?[-.\s]?[0-9]{3}[-.\s]?[0-9]{4}`, returning
the remainder of the preferred (JS backtracking order) match at the head
of `s`. -/
def stdPat1 (s : List Char) : Option (List Char) :=
  (optChoices (fun c => c == '+') s).findSome? fun s1 =>
  (optChoices (fun c => c == '1') s1).findSome? fun s2 =>
  (optChoices isSepChar s2).findSome? fun s3 =>
  (optChoices (fun c => c == '(') s3).findSome? fun s4 =>
  (digitsExact 3 s4).bind fun s5 =>
  (optChoices (fun c => c == ')') s5).findSome? fun s6 =>
  (optChoices isSepChar s6).findSome? fun s7 =>
  (digitsExact 3 s7).bind fun s8 =>
  (optChoices isSepChar s8).findSome? fun s9 =>
  digitsExact 4 s9

/-- Standard pattern 2, `\b\d{10}\b`. -/
def stdPat2 (prev : Option Char) (s : List Char) : Option (List Char) :=
  if boundaryAt prev s then
    (digitsExact 10 s).bind fun rem =>
      if boundaryAfterDigits rem then some rem else none
  else none

/-- Standard pattern 3, `\b\d{3}[-.\s]?\d{3}[-.\s]?\d{4}\b`. -/
def stdPat3 (prev : Option Char) (s : List Char) : Option (List Char) :=
  if boundaryAt prev s then
    (digitsExact 3 s).bind fun s1 =>
    (optChoices isSepChar s1).findSome? fun s2 =>
    (digitsExact 3 s2).bind fun s3 =>
    (optChoices isSepChar s3).findSome? fun s4 =>
    (digitsExact 4 s4).bind fun rem =>
    if boundaryAfterDigits rem then some rem else none
  else none

/-- Standard pattern 4, `\(\d{3}\)\s?\d{3}[-.\s]?\d{4}`. -/
def stdPat4 (s : List Char) : Option (List Char) :=
  match s with
  | '(' :: s0 =>
    (digitsExact 3 s0).bind fun s1 =>
    (match s1 with
     | ')' :: s2 =>
       (optChoices isJsWS s2).findSome? fun s3 =>
       (digitsExact 3 s3).bind fun s4 =>
       (optChoices isSepChar s4).findSome? fun s5 =>
       digitsExact 4 s5
     | _ => none)
  | _ => none

/-- Standard pattern 5, `\+1[-.\s]?\d{3}[-.\s]?\d{3}[-.\s]?\d{4}`. -/
def stdPat5 (s : List Char) : Option (List Char) :=
  match s with
  | '+' :: '1' :: s0 =>
    (optChoices isSepChar s0).findSome? fun s1 =>
    (digitsExact 3 s1).bind fun s2 =>
    (optChoices isSepChar s2).findSome? fun s3 =>
    (digitsExact 3 s3).bind fun s4 =>
    (optChoices isSepChar s4).findSome? fun s5 =>
    digitsExact 4 s5
  | _ => none

/-- International pattern 1, `\+\d{1,3}[-.\s]?\d{4,14}`. -/
def intlPat1 (s : List Char) : Option (List Char) :=
  match s with
  | '+' :: s0 =>
    (digitRange 1 3 s0).findSome? fun s1 =>
    (optChoices isSepChar s1).findSome? fun s2 =>
    (digitRange 4 14 s2).head?
  | _ => none

/-- International pattern 2, `00\d{1,3}[-.\s]?\d{4,14}`. -/
def intlPat2 (s : List Char) : Option (List Char) :=
  match s with
  | '0' :: '0' :: s0 =>
    (digitRange 1 3 s0).findSome? fun s1 =>
    (optChoices isSepChar s1).findSome? fun s2 =>
    (digitRange 4 14 s2).head?
  | _ => none

/-- Disguised pattern 1,
`\b\d+[\s]*[-_.*#@!]+[\s]*\d+[\s]*[-_.*#@!]+[\s]*\d+`. -/
def disgPat1 (prev : Option Char) (s : List Char) : Option (List Char) :=
  if boundaryAt prev s then
    (genPlus Char.isDigit s).findSome? fun s1 =>
    (genStar isJsWS s1).findSome? fun s2 =>
    (genPlus isDisgSym s2).findSome? fun s3 =>
    (genStar isJsWS s3).findSome? fun s4 =>
    (genPlus Char.isDigit s4).findSome? fun s5 =>
    (genStar isJsWS s5).findSome? fun s6 =>
    (genPlus isDisgSym s6).findSome? fun s7 =>
    (genStar isJsWS s7).findSome? fun s8 =>
    (genPlus Char.isDigit s8).head?
  else none

/-- The alternation `(dot|dash|space|at)` of disguised pattern 2. -/
def wordAlts : List (List Char) := ["dot".data, "dash".data, "space".data, "at".data]

/-- Consume a literal word case-insensitively. -/
def consumeWordCI (w s : List Char) : Option (List Char) :=
  if w.isPrefixOf (lowerStr (s.take w.length)) then some (s.drop w.length)
  else none

/-- Disguised pattern 2,
`\b\d+\s*(dot|dash|space|at)\s*\d+\s*(dot|dash|space|at)\s*\d+` (`i` flag). -/
def disgPat2 (prev : Option Char) (s : List Char) : Option (List Char) :=
  if boundaryAt prev s then
    (genPlus Char.isDigit s).findSome? fun s1 =>
    (genStar isJsWS s1).findSome? fun s2 =>
    wordAlts.findSome? fun w =>
    (consumeWordCI w s2).bind fun s3 =>
    (genStar isJsWS s3).findSome? fun s4 =>
    (genPlus Char.isDigit s4).findSome? fun s5 =>
    (genStar isJsWS s5).findSome? fun s6 =>
    wordAlts.findSome? fun w2 =>
    (consumeWordCI w2 s6).bind fun s7 =>
    (genStar isJsWS s7).findSome? fun s8 =>
    (genPlus Char.isDigit s8).head?
  else none

/-- `String.matchAll` with a `g`-flagged regex: walk the text; at each
position try the matcher (given the previous character for `\b`); on a
match record `(position, matched text)` and resume after it, else advance
one character.  None of the embedded patterns matches the empty string. -/
def scanGo (m : Option Char → List Char → Option (List Char))
    (prev : Option Char) (s : List Char) (pos : Nat) : List (Nat × List Char) :=
  match s with
  | [] => []
  | c :: rest =>
    match m prev (c :: rest) with
    | some rem =>
      if h : rem.length < rest.length + 1 then
        let len := rest.length + 1 - rem.length
        ((pos, (c :: rest).take len) ::
          scanGo m ((c :: rest).take len).getLast? rem (pos + len))
      else scanGo m (some c) rest (pos + 1)
    | none => scanGo m (some c) rest (pos + 1)
termination_by s.length
decreasing_by
  all_goals simp_all

/-- All matches of one pattern over a text. -/
def scanAll (m : Option Char → List Char → Option (List Char)) (t : String) :
    List (Nat × List Char) :=
  scanGo m none t.data 0

/-- The format test `/\(\d{3}\)/` used by `calculatePhoneConfidence`. -/
def hasParenTriple (l : List Char) : Bool :=
  l.tails.any fun s =>
    match s with
    | '(' :: a :: b :: c :: ')' :: _ => a.isDigit && b.isDigit && c.isDigit
    | _ => false

/-- Head test for `/\d{3}[-.\s]\d{3}[-.\s]\d{4}/` (the separators are
mandatory here, unlike in the search patterns). -/
def sepTripleAt (s : List Char) : Bool :=
  match digitsExact 3 s with
  | some (c :: s2) =>
    if isSepChar c then
      match digitsExact 3 s2 with
      | some (d :: s4) => if isSepChar d then (digitsExact 4 s4).isSome else false
      | _ => false
    else false
  | _ => false

/-- The format test `/\d{3}[-.\s]\d{3}[-.\s]\d{4}/`. -/
def hasSepTriple (l : List Char) : Bool := l.tails.any sepTripleAt

/-- `ContentModerator.calculatePhoneConfidence`. -/
def calcPhoneConfidence (text : List Char) : ℚ :=
  let digits := text.filter Char.isDigit
  let c1 : ℚ := 1/2
  let c2 := c1 +
    (if digits.length == 10 then (3/10 : ℚ)
     else if digits.length == 11 && (digits.head? == some '1') then 3/10
     else if 7 ≤ digits.length ∧ digits.length ≤ 15 then 1/10 else 0)
  let c3 := c2 + (if hasParenTriple text then (2/10 : ℚ) else 0)
  let c4 := c3 + (if hasSepTriple text then (2/10 : ℚ) else 0)
  let c5 := c4 + (if text.head? == some '+' then (1/10 : ℚ) else 0)
  min c5 1

/-- `ContentModerator.calculateDisguisedPhoneConfidence`. -/
def calcDisguisedConfidence (text : List Char) : ℚ :=
  let digitCount := (text.filter Char.isDigit).length
  let c1 : ℚ := 3/10
  let c2 := c1 + (if 7 ≤ digitCount then (3/10 : ℚ) else 0)
  let c3 := c2 + (if 10 ≤ digitCount then (2/10 : ℚ) else 0)
  let c4 := c3 + (if text.any isDisgSym then (2/10 : ℚ) else 0)
  min c4 (9/10)

/-- Matches of one standard/international pattern as `type := "number"`
`PhoneNumberMatch`es. -/
def numberMatchesOf (m : Option Char → List Char → Option (List Char))
    (t : String) : List PhoneMatch :=
  (scanAll m t).map fun pm =>
    { text := String.mk pm.2, type := "number",
      confidence := calcPhoneConfidence pm.2,
      startPos := pm.1, endPos := pm.1 + pm.2.length }

/-- The five `phonePatterns.standard` regexes, in source order. -/
def stdMatchers : List (Option Char → List Char → Option (List Char)) :=
  [fun _ s => stdPat1 s, stdPat2, stdPat3, fun _ s => stdPat4 s,
   fun _ s => stdPat5 s]

/-- The two `phonePatterns.international` regexes, in source order. -/
def intlMatchers : List (Option Char → List Char → Option (List Char)) :=
  [fun _ s => intlPat1 s, fun _ s => intlPat2 s]

/-- `ContentModerator.detectDisguisedPhoneNumbers`: matches of the two
disguised patterns kept only when their confidence exceeds `0.4`. -/
def detectDisguisedPhoneNumbers (t : String) : List PhoneMatch :=
  [disgPat1, disgPat2].flatMap fun m =>
    (scanAll m t).filterMap fun pm =>
      let conf := calcDisguisedConfidence pm.2
      if (2/5 : ℚ) < conf then
        some { text := String.mk pm.2, type := "disguised", confidence := conf,
               startPos := pm.1, endPos := pm.1 + pm.2.length }
      else none

/-- `ContentModerator.detectPhoneNumbers`: standard, international,
spelled and disguised matches in that order, filtered by the confidence
threshold (`0.3` in strict mode, `0.6` otherwise). -/
def detectPhoneNumbers (cfg : ModerationConfig) (t : String) : List PhoneMatch :=
  let ms := (stdMatchers.flatMap fun m => numberMatchesOf m t)
    ++ (intlMatchers.flatMap fun m => numberMatchesOf m t)
    ++ detectSpelledPhoneNumbers t
    ++ detectDisguisedPhoneNumbers t
  let threshold : ℚ := if cfg.strictMode then 3/10 else 6/10
  ms.filter fun m => threshold ≤ m.confidence

/-- The `inappropriateContent.sexual` word list. -/
def sexualWords : List String :=
  ["explicit", "nude", "naked", "sex", "sexual", "porn", "xxx", "adult",
   "hookup", "dtf", "fwb", "nsa", "casual", "bedroom", "intimate"]

/-- The `inappropriateContent.offensive` word list. -/
def offensiveWords : List String :=
  ["hate", "stupid", "idiot", "moron", "loser", "ugly", "fat"]

/-- The `inappropriateContent.harassment` word list. -/
def harassmentWords : List String :=
  ["stalk", "follow home", "creep", "obsessed", "crazy", "psycho",
   "bitch", "slut", "whore", "kill yourself", "die"]

/-- The `inappropriateContent.spam` keyword list. -/
def spamWords : List String :=
  ["buy now", "click here", "free money", "get rich", "work from home",
   "miracle cure", "weight loss", "viagra", "bitcoin", "investment"]

/-- The `inappropriateContent.personalInfo` word list. -/
def personalInfoWords : List String :=
  ["address", "home address", "where do you live", "phone number",
   "cell phone", "mobile", "whatsapp", "telegram", "snapchat",
   "instagram", "facebook", "social security", "credit card"]

/-- `Object.entries(this.inappropriateContent)` in source order. -/
def inappropriateCategories : List (String × List String) :=
  [("sexual", sexualWords), ("offensive", offensiveWords),
   ("harassment", harassmentWords), ("spam", spamWords),
   ("personalInfo", personalInfoWords)]

/-- `lowerText.includes(word.toLowerCase())`. -/
def containsWord (t : String) (w : String) : Bool :=
  containsSeq (lowerStr w.data) (lowerStr t.data)

/-- `[...new Set(xs)]`: drop duplicates keeping first occurrences. -/
def dedupKeepFirst (l : List String) : List String :=
  match l with
  | [] => []
  | x :: xs => x :: dedupKeepFirst (xs.filter (fun y => !(y == x)))
termination_by l.length
decreasing_by exact Nat.lt_succ_of_le (List.length_filter_le _ _)

/-- Result record of `detectInappropriateContent`. -/
structure InappropriateResult where
  violations : List String
  flaggedContent : List String
  confidence : ℚ
deriving DecidableEq

/-- `ContentModerator.detectInappropriateContent`: every contained word
pushes its category and itself (both deduplicated at the end); the
confidence is 0.8 as soon as there is any hit. -/
def detectInappropriateContent (t : String) : InappropriateResult :=
  let hits := inappropriateCategories.flatMap fun cw =>
    (cw.2.filter (containsWord t)).map fun w => (cw.1, w)
  { violations := dedupKeepFirst (hits.map Prod.fst),
    flaggedContent := dedupKeepFirst (hits.map Prod.snd),
    confidence := if hits.isEmpty then 0 else 8/10 }

/-- Count of `/[A-Z]/g` matches. -/
def upperCount (l : List Char) : Nat :=
  (l.filter fun c => 'A' ≤ c && c ≤ 'Z').length

/-- `/[!?]{2,}/g` has a match iff two adjacent characters of the class
occur. -/
def hasPunctRun (l : List Char) : Bool :=
  l.tails.any fun s =>
    match s with
    | a :: b :: _ => (a == '!' || a == '?') && (b == '!' || b == '?')
    | _ => false

/-- The maximal value of `wordCounts` in `detectSpam`: the text is split on
whitespace and words are counted case-insensitively. -/
def maxRepeatCount (t : String) : Nat :=
  let ws := (wsSplit t.data).map lowerStr
  ws.foldl (fun acc w => max acc (ws.count w)) 0

/-- Result record of `detectSpam`. -/
structure SpamResult where
  isSpam : Bool
  flaggedContent : List String
  confidence : ℚ
deriving DecidableEq

/-- `ContentModerator.detectSpam`.  The caps ratio is the exact rational
`upperCount / length` (`ℚ` division by zero is 0, which agrees with the
JS `NaN > 0.5` being false on the empty string). -/
def detectSpam (t : String) : SpamResult :=
  let keywordHits := spamWords.filter (containsWord t)
  let score1 : ℚ := keywordHits.foldl (fun acc _ => acc + 2/10) 0
  let score2 := score1 +
    (if ((upperCount t.data : ℚ) / ((t.data.length : ℚ))) > 1/2
     then (3/10 : ℚ) else 0)
  let score3 := score2 + (if hasPunctRun t.data then (2/10 : ℚ) else 0)
  let score4 := score3 + (if 3 < maxRepeatCount t then (2/10 : ℚ) else 0)
  { isSpam := decide ((6/10 : ℚ) ≤ score4),
    flaggedContent := keywordHits,
    confidence := min score4 1 }

/-- `ContentModerator.generateSuggestions`. -/
def generateSuggestions (violations : List String) : List String :=
  (if violations.contains "phone_number" then
    ["Remove phone numbers and use our secure messaging system instead",
     "Try our video calling feature for direct communication"] else [])
  ++ (if violations.contains "sexual" then
    ["Keep conversations respectful and appropriate",
     "Focus on getting to know each other first"] else [])
  ++ (if violations.contains "harassment" then
    ["Be respectful and considerate in your messages",
     "Treat others as you would like to be treated"] else [])
  ++ (if violations.contains "spam" then
    ["Write personalized messages instead of generic content",
     "Avoid excessive capitalization and punctuation"] else [])

/-- `Math.max(0, Math.max(...))`: the running `maxConfidence` starts at 0. -/
def qListMax (l : List ℚ) : ℚ := l.foldl max 0

/-- `ModerationResult`. -/
structure ModerationResult where
  isViolation : Bool
  violationType : List String
  confidence : ℚ
  flaggedContent : List String
  suggestions : List String
deriving DecidableEq

/-- `ContentModerator.moderateContent`: run the four checks in source
order, accumulating violation tags, flagged content, and the maximal
confidence; a violation is reported iff any tag was pushed. -/
def moderateContent (cfg : ModerationConfig) (t : String) : ModerationResult :=
  let phone := if cfg.checkPhoneNumbers then detectPhoneNumbers cfg t else []
  let v1 : List String := if phone.length > 0 then ["phone_number"] else []
  let f1 : List String := if phone.length > 0 then phone.map PhoneMatch.text else []
  let c1 : ℚ := if phone.length > 0 then qListMax (phone.map PhoneMatch.confidence) else 0
  let inapp := detectInappropriateContent t
  let useInapp := cfg.checkInappropriateContent && !inapp.violations.isEmpty
  let v2 := v1 ++ (if useInapp then inapp.violations else [])
  let f2 := f1 ++ (if useInapp then inapp.flaggedContent else [])
  let c2 := if useInapp then max c1 inapp.confidence else c1
  let spam := detectSpam t
  let useSpam := cfg.checkSpam && spam.isSpam
  let v3 := v2 ++ (if useSpam then ["spam"] else [])
  let f3 := f2 ++ (if useSpam then spam.flaggedContent else [])
  let c3 := if useSpam then max c2 spam.confidence else c2
  let custom := cfg.customBlockedWords.filter (containsWord t)
  let v4 := v3 ++ (if custom.length > 0 then ["custom_blocked"] else [])
  let f4 := f3 ++ custom
  let c4 := if custom.length > 0 then max c3 (9/10) else c3
  { isViolation := decide (0 < v4.length),
    violationType := v4,
    confidence := c4,
    flaggedContent := dedupKeepFirst f4,
    suggestions := generateSuggestions v4 }

/-- The global replacement loop of `sanitizeText` for one flagged string:
replace every (left-to-right, non-overlapping, case-insensitive)
occurrence of `pat` with `*` repeated `pat.length` times (the source
escapes `pat`, so it is matched literally). -/
def replaceCIgo (pat s : List Char) : List Char :=
  match s with
  | [] => []
  | c :: rest =>
    if _h : 0 < pat.length ∧ lowerStr ((c :: rest).take pat.length) = lowerStr pat
    then
      List.replicate pat.length '*' ++ replaceCIgo pat ((c :: rest).drop pat.length)
    else c :: replaceCIgo pat rest
termination_by s.length
decreasing_by
  all_goals simp_all

/-- `sanitizeText`: return the text unchanged when the default moderator
reports no violation, else star out every flagged string. -/
def sanitizeText (t : String) : String :=
  let result := moderateContent defaultConfig t
  if result.isViolation then
    String.mk (result.flaggedContent.foldl (fun acc w => replaceCIgo w.data acc) t.data)
  else t

/-- Claim C6: the spec's own example text ends with the run of ten number
words, so the inner loop of `detectSpelledPhoneNumbers` reaches the window
end without meeting a non-number word and emits nothing: the text yields no
spelled match and no phone-number match at all.  The third conjunct shows
the detector does emit `min 0.9 (run/10)` confidences when the run is
terminated by a non-number word inside the window, isolating the slip. -/
theorem spelled_run_at_text_end_not_flagged :
    detectSpelledPhoneNumbers
        "my number is five five five one two three four five six seven" = [] ∧
    detectPhoneNumbers defaultConfig
        "my number is five five five one two three four five six seven" = [] ∧
    (detectSpelledPhoneNumbers
        "call five five five one two three four five six seven now").map
      PhoneMatch.confidence = [9/10, 9/10, 4/5, 7/10] := by
  refine ⟨?_, ?_, ?_⟩ <;> with_unfolding_all decide

theorem foldl_const_add {α : Type} (c : ℚ) (l : List α) :
    ∀ init : ℚ, l.foldl (fun acc _ => acc + c) init = init + l.length * c := by
  induction l with
  | nil => intro init; simp
  | cons x xs ih =>
    intro init
    rw [List.foldl_cons, ih]
    push_cast [List.length_cons]
    ring

/-- Claim C7: the spam score is 0.2 per contained keyword of the fixed
list, plus 0.3 for a >0.5 uppercase ratio, plus 0.2 for a `!?` run, plus
0.2 for a word repeated more than 3 times (case-insensitively), and the
verdict is spam iff the score reaches 0.6; the all-caps "BUY NOW!!!"
message is spam. -/
theorem spam_score_characterization :
    (∀ t : String,
      (detectSpam t).isSpam
        = decide ((6/10 : ℚ) ≤
            ((spamWords.filter (containsWord t)).length : ℚ) * (2/10)
            + (if ((upperCount t.data : ℚ) / ((t.data.length : ℚ))) > 1/2
               then (3/10 : ℚ) else 0)
            + (if hasPunctRun t.data then (2/10 : ℚ) else 0)
            + (if 3 < maxRepeatCount t then (2/10 : ℚ) else 0))) ∧
    (detectSpam "BUY NOW!!! BUY NOW!!! BUY NOW!!! BUY NOW!!!").isSpam = true := by
  constructor
  · intro t
    have h := foldl_const_add (2/10 : ℚ) (spamWords.filter (containsWord t)) 0
    rw [zero_add] at h
    simp only [detectSpam, h]
  · with_unfolding_all decide

/-- Claim C9: on any text on which the default moderator reports no
violation, `sanitizeText` is the identity. -/
theorem sanitize_identity_on_clean :
    ∀ t : String, (moderateContent defaultConfig t).isViolation = false →
      sanitizeText t = t := by
  intro t h
  simp [sanitizeText, h]

/-- Witness for C9: "hello there" is clean and sanitizes to itself. -/
theorem sanitize_identity_on_clean_witness :
    (moderateContent defaultConfig "hello there").isViolation = false ∧
    sanitizeText "hello there" = "hello there" := by
  have h : (moderateContent defaultConfig "hello there").isViolation = false := by
    with_unfolding_all decide
  exact ⟨h, sanitize_identity_on_clean "hello there" h⟩
